import Mathlib

/-!
Shallow embedding of the empress-cli program (src/cli.js) for checking the
natural-language specification against the code.

The program is a Node.js CLI whose only logic is: validate a JSON record
against a fixed AJV schema, perform one MongoDB operation, print/log a
result.  We embed:

* a JSON value type and the compiled AJV validator for the xAPI schema of
  cli.js lines 14-41 (the source constructs the validator with `new Ajv()`,
  i.e. with AJV default options, where `allErrors` is false: validation
  aborts at the first failing keyword, so `validate.errors` holds exactly
  the first violation found, in schema evaluation order - type, then
  required in listed order, then properties in declaration order);
* an event-trace model of each command handler relevant to the claims:
  a handler run is the list of connection / database / log / print events
  it emits, plus a process outcome (ok, exited with a code, or an uncaught
  rejection).  `connect` (cli.js lines 67-76) calls `process.exit(1)` when
  the MongoDB connection fails, which terminates the process immediately
  (skipping `finally` blocks); this is modelled by the `exited` outcome
  short-circuiting the rest of the run.
* inquirer confirmation prompts: a prompt answer is `Option Bool` (`none`
  models pressing enter with no input); inquirer's `confirm` prompt
  resolves an empty answer to its `default`, and to `true` when the prompt
  gives no `default` (the prompt inside `resetDatabase`, cli.js 295-299,
  gives none; the `reset-db` command prompt, cli.js 897-905, gives
  `default: false`).
-/

namespace Empress

/-- JSON values, the data the CLI parses, validates and stores. -/
inductive Json where
  | null
  | bool (b : Bool)
  | num (n : Int)
  | str (s : String)
  | arr (elems : List Json)
  | obj (fields : List (String × Json))

/-- Field lookup on a JSON object; `none` on any non-object. -/
def Json.lookup : Json → String → Option Json
  | Json.obj fields, key => fields.lookup key
  | _, _ => none

/-- True exactly on JSON objects (AJV type "object": arrays and null excluded). -/
def Json.isObj : Json → Bool
  | Json.obj _ => true
  | _ => false

/-- True exactly on JSON strings. -/
def Json.isStr : Json → Bool
  | Json.str _ => true
  | _ => false

/-- The field is present and is a string. -/
def optIsStr : Option Json → Bool
  | some (Json.str _) => true
  | _ => false

/-- The field is present and is an object. -/
def optIsObj : Option Json → Bool
  | some (Json.obj _) => true
  | _ => false

/-- An AJV violation descriptor: the failing data path plus the nature of
the failure (missing required property, or wrong primitive type). -/
inductive VError where
  | missingProperty (dataPath : String) (property : String)
  | wrongType (dataPath : String) (expected : String)
deriving DecidableEq

/-- The `actor` subschema of xAPISchema (cli.js 17-24): type object,
required name and mbox, both strings.  AJV checks type, then required in
order, then properties; with default options it stops at the first
failure, so the result is `[]` or a single error. -/
def validateActor (a : Json) : List VError :=
  if !a.isObj then [VError.wrongType ".actor" "object"]
  else if (a.lookup "name").isNone then [VError.missingProperty ".actor" "name"]
  else if (a.lookup "mbox").isNone then [VError.missingProperty ".actor" "mbox"]
  else if !optIsStr (a.lookup "name") then [VError.wrongType ".actor.name" "string"]
  else if !optIsStr (a.lookup "mbox") then [VError.wrongType ".actor.mbox" "string"]
  else []

/-- The `verb` subschema of xAPISchema (cli.js 25-32): type object,
required id (string) and display (object). -/
def validateVerb (v : Json) : List VError :=
  if !v.isObj then [VError.wrongType ".verb" "object"]
  else if (v.lookup "id").isNone then [VError.missingProperty ".verb" "id"]
  else if (v.lookup "display").isNone then [VError.missingProperty ".verb" "display"]
  else if !optIsStr (v.lookup "id") then [VError.wrongType ".verb.id" "string"]
  else if !optIsObj (v.lookup "display") then [VError.wrongType ".verb.display" "object"]
  else []

/-- The `object` subschema of xAPISchema (cli.js 33-35): type object, no
required inner fields. -/
def validateObjectField (o : Json) : List VError :=
  if !o.isObj then [VError.wrongType ".object" "object"]
  else []

/-- The compiled validator `validate = ajv.compile(xAPISchema)` (cli.js
40-41) under AJV default options (`allErrors: false`): top-level type
check, then required `actor`, `verb`, `object` in order, then the three
property subschemas in declaration order, aborting at the first error. -/
def ajvValidate (j : Json) : List VError :=
  if !j.isObj then [VError.wrongType "" "object"]
  else if (j.lookup "actor").isNone then [VError.missingProperty "" "actor"]
  else if (j.lookup "verb").isNone then [VError.missingProperty "" "verb"]
  else if (j.lookup "object").isNone then [VError.missingProperty "" "object"]
  else if !(validateActor ((j.lookup "actor").getD Json.null)).isEmpty then
    validateActor ((j.lookup "actor").getD Json.null)
  else if !(validateVerb ((j.lookup "verb").getD Json.null)).isEmpty then
    validateVerb ((j.lookup "verb").getD Json.null)
  else validateObjectField ((j.lookup "object").getD Json.null)

/-- Result shape of `validateStatement` (cli.js 404-411): `valid` plus the
error list (`[]` when valid, mirroring the absent `errors` field). -/
structure ValidationResult where
  valid : Bool
  errors : List VError

/-- `validateStatement(data)` (cli.js 404-411): runs the shared AJV
validator and packages the verdict with `validate.errors`. -/
def validateStatement (data : Json) : ValidationResult :=
  { valid := (ajvValidate data).isEmpty, errors := ajvValidate data }

/-- Rendering of one AJV error, modelling its message text inside
`JSON.stringify(validate.errors)`. -/
def VError.render : VError → String
  | VError.missingProperty path prop => path ++ " should have required property " ++ prop
  | VError.wrongType path ty => path ++ " should be " ++ ty

/-- Model of `JSON.stringify(validate.errors)`: the rendered violations in
order. -/
def errorsToString (errs : List VError) : String :=
  String.intercalate "; " (errs.map VError.render)

/-- A MongoDB collection operation issued by a handler: the eight
operation kinds the Gateway exposes (insert-one, insert-many, find,
aggregate, distinct, count, update, delete-many). -/
inductive DbOp where
  | insertOne (record : Json)
  | insertMany (records : List Json)
  | find (filter : Json)
  | aggregate (pipeline : Json)
  | distinct (fieldPath : String)
  | countDocuments
  | updateOne (statementId : String) (authority : Json)
  | deleteMany

/-- One observable step of a handler run: driver connect/close, a database
operation against a named collection, a winston log call (error logs carry
the context string and the stringified error detail), or console output. -/
inductive Event where
  | connect
  | close
  | db (coll : String) (op : DbOp)
  | logInfo (msg : String)
  | logError (ctx : String) (detail : String)
  | print (msg : String)

/-- How a run of a handler (or of the whole command) ends: normal
completion, `process.exit(code)`, or an exception escaping the handler as
an unhandled promise rejection. -/
inductive Outcome where
  | ok
  | exited (code : Nat)
  | uncaught
deriving DecidableEq

/-- A handler run: the events it emitted, in order, and how it ended. -/
structure Run where
  events : List Event
  outcome : Outcome

/-- Sequencing: the continuation runs only when the first part completed
normally (`process.exit` and uncaught exceptions stop everything). -/
def Run.andThen (r : Run) (k : Unit → Run) : Run :=
  match r.outcome with
  | Outcome.ok =>
      { events := r.events ++ (k ()).events, outcome := (k ()).outcome }
  | _ => r

/-- A `finally { await client.close(); }` block: appends the close event on
normal completion and on a caught error, but not after `process.exit`
(which terminates without running `finally`). -/
def withFinallyClose (r : Run) : Run :=
  match r.outcome with
  | Outcome.exited _ => r
  | o => { events := r.events ++ [Event.close], outcome := o }

/-- Configuration read from the environment at startup (cli.js 54-56). -/
structure Config where
  dbName : String
  collectionName : String

/-- The external world a handler runs against: whether
`client.connect()` succeeds, and the current contents of the configured
collection (used for the deleted-count report of `resetDatabase`). -/
structure Env where
  connectionOk : Bool
  store : List Json

/-- `connect()` (cli.js 67-76): attempts the connection; on failure it
logs and calls `process.exit(1)`, terminating the process from inside the
handler. -/
def connectRun (env : Env) : Run :=
  if env.connectionOk then { events := [Event.connect], outcome := Outcome.ok }
  else
    { events := [Event.connect, Event.logError "Could not connect to MongoDB:" "connection failure"],
      outcome := Outcome.exited 1 }

/-- Startup configuration check (cli.js 58-63): a missing (or empty, hence
falsy) MONGO_URI, DB_NAME or COLLECTION_NAME logs an error and exits 1. -/
def envMissing : Option String → Bool
  | none => true
  | some s => s.isEmpty

/-- The process bootstrap (cli.js 54-63). -/
def bootstrapRun (uri dbn coll : Option String) : Run :=
  if envMissing uri || envMissing dbn || envMissing coll then
    { events := [Event.logError "Environment variables MONGO_URI, DB_NAME, or COLLECTION_NAME are not set" ""],
      outcome := Outcome.exited 1 }
  else { events := [], outcome := Outcome.ok }

/-- `createRecord(data)` (cli.js 84-99): connect, validate, insert on
success; a validation failure throws inside the `try`, is caught, and is
logged with the stringified `validate.errors`.  No `finally`, so the
connection is never closed on this handler's own exit path. -/
def createRecordRun (cfg : Config) (env : Env) (data : Json) : Run :=
  (connectRun env).andThen fun _ =>
    if (validateStatement data).valid then
      { events := [Event.db cfg.collectionName (DbOp.insertOne data),
                   Event.logInfo "Record created successfully"],
        outcome := Outcome.ok }
    else
      { events := [Event.logError "Error while creating record:"
                    ("Validation failed: " ++ errorsToString (validateStatement data).errors)],
        outcome := Outcome.ok }

/-- `queryRecords(filter)` (cli.js 101-110): connect, then
`JSON.parse(filter)` (`none` models a malformed filter string, whose parse
error is caught and logged), then `find`.  No `finally`, no close. -/
def queryRecordsRun (cfg : Config) (env : Env) (filterArg : Option Json) : Run :=
  (connectRun env).andThen fun _ =>
    match filterArg with
    | some f =>
        { events := [Event.db cfg.collectionName (DbOp.find f), Event.print "query results"],
          outcome := Outcome.ok }
    | none =>
        { events := [Event.logError "Error while querying records:" "malformed JSON filter"],
          outcome := Outcome.ok }

/-- Shared body of `bulkInsert` (cli.js 112-127) and
`bulkStoreStatements` (cli.js 318-335): keep only the records accepted by
the validator; throw (caught and logged) when none survive, otherwise
`insertMany` the surviving subset and log its count. -/
def bulkBody (cfg : Config) (ctx : String) (data : List Json) : Run :=
  if (data.filter fun r => (validateStatement r).valid).length = 0 then
    { events := [Event.logError ctx "No valid records found"], outcome := Outcome.ok }
  else
    { events := [Event.db cfg.collectionName
                  (DbOp.insertMany (data.filter fun r => (validateStatement r).valid)),
                 Event.logInfo (toString (data.filter fun r => (validateStatement r).valid).length
                                 ++ " records inserted successfully")],
      outcome := Outcome.ok }

/-- `bulkInsert(data)` (cli.js 112-127): no `finally`, no close. -/
def bulkInsertRun (cfg : Config) (env : Env) (data : List Json) : Run :=
  (connectRun env).andThen fun _ => bulkBody cfg "Error during bulk insert:" data

/-- `bulkStoreStatements(data)` (cli.js 318-335): same body, but with a
`finally` that closes the connection. -/
def bulkStoreRun (cfg : Config) (env : Env) (data : List Json) : Run :=
  withFinallyClose ((connectRun env).andThen fun _ => bulkBody cfg "Error during bulk store:" data)

/-- `listAllVerbs()` (cli.js 131-143): distinct over `verb.id`, printed;
`finally` closes the connection. -/
def listAllVerbsRun (cfg : Config) (env : Env) : Run :=
  withFinallyClose ((connectRun env).andThen fun _ =>
    { events := [Event.db cfg.collectionName (DbOp.distinct "verb.id"), Event.print "verbs"],
      outcome := Outcome.ok })

/-- `aggregateStatements(pipeline)` (cli.js 164-176): runs the given
aggregation pipeline against the configured collection and prints the
result; `finally` closes the connection. -/
def aggregateStatementsRun (cfg : Config) (env : Env) (pipeline : Json) : Run :=
  withFinallyClose ((connectRun env).andThen fun _ =>
    { events := [Event.db cfg.collectionName (DbOp.aggregate pipeline),
                 Event.print "aggregation result"],
      outcome := Outcome.ok })

/-- `getLRSStats()` (cli.js 178-189): `countDocuments` on the configured
collection and prints the total; `finally` closes the connection. -/
def getLRSStatsRun (cfg : Config) (env : Env) : Run :=
  withFinallyClose ((connectRun env).andThen fun _ =>
    { events := [Event.db cfg.collectionName DbOp.countDocuments,
                 Event.print ("Total statements in LRS: " ++ toString env.store.length)],
      outcome := Outcome.ok })

/-- `setStatementAuthority(statementId, authority)` (cli.js 547-560):
`updateOne` by id, setting the authority field, on the configured
collection; `finally` closes the connection. -/
def setStatementAuthorityRun (cfg : Config) (env : Env)
    (statementId : String) (authority : Json) : Run :=
  withFinallyClose ((connectRun env).andThen fun _ =>
    { events := [Event.db cfg.collectionName (DbOp.updateOne statementId authority)],
      outcome := Outcome.ok })

/-- `registerNewVerb(verb, definition)` (cli.js 377-388): inserts into the
hard-coded collection "verbs", not the configured one; `finally` close. -/
def registerNewVerbRun (_cfg : Config) (env : Env) (verb definition : String) : Run :=
  withFinallyClose ((connectRun env).andThen fun _ =>
    { events := [Event.db "verbs"
                  (DbOp.insertOne (Json.obj [("verb", Json.str verb), ("definition", Json.str definition)])),
                 Event.logInfo ("Registered new verb: " ++ verb)],
      outcome := Outcome.ok })

/-- `registerNewActivityType(type, definition)` (cli.js 390-401): inserts
into the hard-coded collection "activityTypes"; `finally` close. -/
def registerNewActivityTypeRun (_cfg : Config) (env : Env) (ty definition : String) : Run :=
  withFinallyClose ((connectRun env).andThen fun _ =>
    { events := [Event.db "activityTypes"
                  (DbOp.insertOne (Json.obj [("type", Json.str ty), ("definition", Json.str definition)])),
                 Event.logInfo ("Registered new activity type: " ++ ty)],
      outcome := Outcome.ok })

/-- `resetDatabase()` (cli.js 293-316): prompts an inquirer `confirm` with
NO `default` entry, so an empty answer (`none`, pressing enter) resolves
to inquirer's built-in default `true`; on an affirmative resolution it
connects and runs `deleteMany({})`, reporting the deleted count; the
`finally` closes the connection (skipped when `connect` exits the
process). -/
def resetDatabaseRun (cfg : Config) (env : Env) (answer : Option Bool) : Run :=
  withFinallyClose (
    if answer.getD true then
      (connectRun env).andThen fun _ =>
        { events := [Event.db cfg.collectionName DbOp.deleteMany,
                     Event.print ("Deleted " ++ toString env.store.length ++ " records.")],
          outcome := Outcome.ok }
    else { events := [Event.print "Database reset cancelled."], outcome := Outcome.ok })

/-- The `reset-db` command action (cli.js 893-913): its own inquirer
`confirm` with `default: false` (so an empty answer resolves to `false`),
then, on affirmation, `resetDatabase()` with the second (inner) prompt. -/
def resetDbCommandRun (cfg : Config) (env : Env) (outerAnswer innerAnswer : Option Bool) : Run :=
  if outerAnswer.getD false then
    (resetDatabaseRun cfg env innerAnswer).andThen fun _ =>
      { events := [Event.print "Database records purged."], outcome := Outcome.ok }
  else { events := [Event.print "Operation cancelled."], outcome := Outcome.ok }

/-- The `create <data>` command action (cli.js 707-717): `JSON.parse`
inside a `try` (`none` models a malformed payload: the parse error is
caught and logged, and `createRecord` is never reached). -/
def createCommandRun (cfg : Config) (env : Env) (arg : Option Json) : Run :=
  match arg with
  | none =>
      { events := [Event.logError "Error during record creation:" "malformed JSON payload"],
        outcome := Outcome.ok }
  | some data => createRecordRun cfg env data

/-- The `bulkImport <filepath>` command action (cli.js 726-736): file read
and `JSON.parse` inside a `try` (`none` models any read/parse failure),
then `bulkInsert`. -/
def bulkImportCommandRun (cfg : Config) (env : Env) (fileContent : Option (List Json)) : Run :=
  match fileContent with
  | none =>
      { events := [Event.logError "Error during bulk import:" "file read or JSON parse failure"],
        outcome := Outcome.ok }
  | some data => bulkInsertRun cfg env data

/-- `importStatements(filePath)` (cli.js 366-374): file read and
`JSON.parse` inside a `try` (`none` models a read/parse failure, caught
and logged), then `bulkStoreStatements`. -/
def importStatementsRun (cfg : Config) (env : Env) (fileContent : Option (List Json)) : Run :=
  match fileContent with
  | none =>
      { events := [Event.logError "Error during import:" "file read or JSON parse failure"],
        outcome := Outcome.ok }
  | some data => bulkStoreRun cfg env data

/-- The `bulk-store <data>` command action (cli.js 919-926):
`JSON.parse(data)` with NO surrounding `try`, so a malformed payload
(`none`) throws out of the async action uncaught - no logger call is made
and the rejection escapes the handler. -/
def bulkStoreCommandRun (cfg : Config) (env : Env) (arg : Option (List Json)) : Run :=
  match arg with
  | none => { events := [], outcome := Outcome.uncaught }
  | some data =>
      (bulkStoreRun cfg env data).andThen fun _ =>
        { events := [Event.print "Statements stored successfully."], outcome := Outcome.ok }

/-- Event classifiers and run observations used by the theorems. -/
def isCloseEvent : Event → Bool
  | Event.close => true
  | _ => false

def isDbEvent : Event → Bool
  | Event.db _ _ => true
  | _ => false

def isDeleteManyEvent : Event → Bool
  | Event.db _ DbOp.deleteMany => true
  | _ => false

def isLogErrorEvent : Event → Bool
  | Event.logError _ _ => true
  | _ => false

def isLogInfoMsg (m : String) : Event → Bool
  | Event.logInfo s => s == m
  | _ => false

/-- The records an event hands to an insert operation. -/
def recordsOfEvent : Event → List Json
  | Event.db _ (DbOp.insertOne r) => [r]
  | Event.db _ (DbOp.insertMany rs) => rs
  | _ => []

/-- The collection an event's database operation targets, if any. -/
def collOfEvent : Event → Option String
  | Event.db c _ => some c
  | _ => none

def Run.hasClose (r : Run) : Bool := r.events.any isCloseEvent

def Run.hasDbOp (r : Run) : Bool := r.events.any isDbEvent

def Run.hasDeleteMany (r : Run) : Bool := r.events.any isDeleteManyEvent

def Run.hasLogError (r : Run) : Bool := r.events.any isLogErrorEvent

def Run.hasLogInfo (r : Run) (m : String) : Bool := r.events.any (isLogInfoMsg m)

/-- All records inserted over a run, in order. -/
def Run.insertedRecords (r : Run) : List Json := (r.events.map recordsOfEvent).flatten

/-- The collections touched by the run's database operations, in order. -/
def Run.dbColls (r : Run) : List String := r.events.filterMap collOfEvent

/-- Effect of one event on the contents of the collection named `coll`
(inserts append, `deleteMany({})` empties, everything else is read-only). -/
def applyEvent (coll : String) (store : List Json) : Event → List Json
  | Event.db c (DbOp.insertOne r) => if c = coll then store ++ [r] else store
  | Event.db c (DbOp.insertMany rs) => if c = coll then store ++ rs else store
  | Event.db c DbOp.deleteMany => if c = coll then [] else store
  | _ => store

/-- Contents of collection `coll` after a run's events. -/
def applyEvents (coll : String) (store : List Json) (events : List Event) : List Json :=
  events.foldl (applyEvent coll) store

/-! Concrete inputs used by counterexamples and witnesses. -/

/-- A fully well-formed xAPI statement (the positive example of spec §8). -/
def exGoodActor : Json :=
  Json.obj [("name", Json.str "John"), ("mbox", Json.str "mailto:john@x.com")]

def exGoodVerb : Json :=
  Json.obj [("id", Json.str "http://adlnet.gov/expapi/verbs/completed"),
            ("display", Json.obj [("en-US", Json.str "completed")])]

def exGoodObject : Json :=
  Json.obj [("objectType", Json.str "Activity"), ("name", Json.str "Course")]

def exGoodRecord : Json :=
  Json.obj [("actor", exGoodActor), ("verb", exGoodVerb), ("object", exGoodObject)]

/-- The negative example of spec §8: an actor with only a name. -/
def exActorNameOnly : Json :=
  Json.obj [("actor", Json.obj [("name", Json.str "John")])]

/-- A record whose required fields are all present but where actor.name is
a number rather than a string. -/
def exBadNameType : Json :=
  Json.obj [("actor", Json.obj [("name", Json.num 5), ("mbox", Json.str "mailto:j@x.com")]),
            ("verb", exGoodVerb),
            ("object", exGoodObject)]

/-- Concrete configuration and environments for witnesses. -/
def cfgW : Config := { dbName := "empress", collectionName := "statements" }

def envOk : Env := { connectionOk := true, store := [] }

def envOkOneRecord : Env := { connectionOk := true, store := [exGoodRecord] }

def envConnFail : Env := { connectionOk := false, store := [] }

/-! Helper lemmas about the validator. -/

theorem validateActor_length (a : Json) : (validateActor a).length ≤ 1 := by
  unfold validateActor
  split_ifs <;> simp

theorem validateVerb_length (v : Json) : (validateVerb v).length ≤ 1 := by
  unfold validateVerb
  split_ifs <;> simp

theorem validateObjectField_length (o : Json) : (validateObjectField o).length ≤ 1 := by
  unfold validateObjectField
  split_ifs <;> simp

theorem ajvValidate_length (j : Json) : (ajvValidate j).length ≤ 1 := by
  unfold ajvValidate
  split_ifs <;>
    first
      | simp
      | exact validateActor_length _
      | exact validateVerb_length _
      | exact validateObjectField_length _

theorem optIsStr_spec {o : Option Json} (h : optIsStr o = true) :
    ∃ s, o = some (Json.str s) := by
  cases o with
  | none => simp [optIsStr] at h
  | some j => cases j <;> simp [optIsStr] at h ⊢

theorem optIsObj_spec {o : Option Json} (h : optIsObj o = true) :
    ∃ fs, o = some (Json.obj fs) := by
  cases o with
  | none => simp [optIsObj] at h
  | some j => cases j <;> simp [optIsObj] at h ⊢

theorem lookup_some_isObj {j : Json} {k : String} {x : Json}
    (h : j.lookup k = some x) : j.isObj = true := by
  cases j <;> simp [Json.lookup, Json.isObj] at h ⊢

theorem validateActor_ok {a : Json}
    (hn : optIsStr (a.lookup "name") = true)
    (hm : optIsStr (a.lookup "mbox") = true) :
    validateActor a = [] := by
  obtain ⟨s, hs⟩ := optIsStr_spec hn
  obtain ⟨m, hm2⟩ := optIsStr_spec hm
  have hobj : a.isObj = true := lookup_some_isObj hs
  simp [validateActor, hobj, hs, hm2, optIsStr]

theorem validateVerb_ok {v : Json}
    (hi : optIsStr (v.lookup "id") = true)
    (hd : optIsObj (v.lookup "display") = true) :
    validateVerb v = [] := by
  obtain ⟨s, hs⟩ := optIsStr_spec hi
  obtain ⟨fs, hd2⟩ := optIsObj_spec hd
  have hobj : v.isObj = true := lookup_some_isObj hs
  simp [validateVerb, hobj, hs, hd2, optIsStr, optIsObj]

/-! Helper lemmas about runs. -/

theorem connectRun_of_ok {env : Env} (h : env.connectionOk = true) :
    connectRun env = { events := [Event.connect], outcome := Outcome.ok } := by
  simp [connectRun, h]

theorem andThen_ok (es : List Event) (k : Unit → Run) :
    Run.andThen { events := es, outcome := Outcome.ok } k =
      { events := es ++ (k ()).events, outcome := (k ()).outcome } := rfl

/-! Claim theorems. -/

/-- C1 (counterexample): on the input of the spec example,
`{"actor":{"name":"John"}}`, the Validator returns `valid = false` but the
error list is the single error "missing required property verb" - it cites
neither the missing `actor.mbox` nor the missing `object`, refuting the
claim that the returned error list contains every violation present in the
record. -/
theorem c1_counterexample :
    (validateStatement exActorNameOnly).valid = false ∧
    (validateStatement exActorNameOnly).errors = [VError.missingProperty "" "verb"] ∧
    VError.missingProperty ".actor" "mbox" ∉ (validateStatement exActorNameOnly).errors ∧
    VError.missingProperty "" "object" ∉ (validateStatement exActorNameOnly).errors := by
  refine ⟨by decide, by decide, by decide, by decide⟩

/-- C1 (amended): the Validator is built with AJV default options
(`allErrors` false), so on every invalid record the returned error list
contains exactly one violation - the first one found in schema evaluation
order - never the full set. -/
theorem c1_first_error_only (j : Json)
    (h : (validateStatement j).valid = false) :
    (validateStatement j).errors.length = 1 := by
  have hlen : (ajvValidate j).length ≤ 1 := ajvValidate_length j
  have hne : (ajvValidate j).isEmpty = false := by
    simpa [validateStatement] using h
  cases hh : ajvValidate j with
  | nil => rw [hh] at hne; simp at hne
  | cons e rest =>
      rw [hh] at hlen
      simp only [validateStatement, hh, List.length_cons] at *
      omega

/-- Witness for c1_first_error_only at the spec example input. -/
theorem c1_witness :
    (validateStatement exActorNameOnly).valid = false ∧
    (validateStatement exActorNameOnly).errors.length = 1 :=
  ⟨by decide, c1_first_error_only exActorNameOnly (by decide)⟩

/-- C3 (counterexample): a record in which `actor.name`, `actor.mbox`,
`verb.id`, `verb.display` and `object` are all present, but `actor.name`
is a number, is rejected by the Validator - presence of the fields alone
does not make the Validator return `valid = true`. -/
theorem c3_counterexample :
    (((exBadNameType.lookup "actor").getD Json.null).lookup "name").isSome = true ∧
    (((exBadNameType.lookup "actor").getD Json.null).lookup "mbox").isSome = true ∧
    (((exBadNameType.lookup "verb").getD Json.null).lookup "id").isSome = true ∧
    (((exBadNameType.lookup "verb").getD Json.null).lookup "display").isSome = true ∧
    (exBadNameType.lookup "object").isSome = true ∧
    (validateStatement exBadNameType).valid = false := by
  refine ⟨by decide, by decide, by decide, by decide, by decide, by decide⟩

/-- C3 (amended): every record in which `actor.name` and `actor.mbox` are
present as strings, `verb.id` is present as a string, `verb.display` is
present as an object, and the `object` field is present as an object, is
accepted by the Validator (`valid = true`). -/
theorem c3_typed_fields_valid (j a v o : Json)
    (ha : j.lookup "actor" = some a)
    (hv : j.lookup "verb" = some v)
    (ho : j.lookup "object" = some o)
    (hn : optIsStr (a.lookup "name") = true)
    (hm : optIsStr (a.lookup "mbox") = true)
    (hi : optIsStr (v.lookup "id") = true)
    (hd : optIsObj (v.lookup "display") = true)
    (hoo : o.isObj = true) :
    (validateStatement j).valid = true := by
  have hj : j.isObj = true := lookup_some_isObj ha
  simp [validateStatement, ajvValidate, hj, ha, hv, ho,
        validateActor_ok hn hm, validateVerb_ok hi hd, validateObjectField, hoo]

/-- Witness for c3_typed_fields_valid at the well-formed example record. -/
theorem c3_witness : (validateStatement exGoodRecord).valid = true :=
  c3_typed_fields_valid exGoodRecord exGoodActor exGoodVerb exGoodObject
    rfl rfl rfl (by decide) (by decide) (by decide) (by decide) (by decide)

/-- C2: for every list submitted to bulk ingestion (both `bulkInsert` and
`bulkStoreStatements`), when the connection succeeds: if at least one
record passes the Validator, exactly the passing subset is handed to
`insertMany` and its count is logged; if zero records pass, an error is
logged and no insert (indeed no database operation) is invoked. -/
theorem c2_bulk_exact_subset (cfg : Config) (env : Env) (data : List Json)
    (hconn : env.connectionOk = true) :
    (¬ (data.filter fun r => (validateStatement r).valid).length = 0 →
      (bulkStoreRun cfg env data).insertedRecords =
        (data.filter fun r => (validateStatement r).valid) ∧
      (bulkStoreRun cfg env data).hasLogInfo
        (toString (data.filter fun r => (validateStatement r).valid).length
          ++ " records inserted successfully") = true ∧
      (bulkInsertRun cfg env data).insertedRecords =
        (data.filter fun r => (validateStatement r).valid)) ∧
    ((data.filter fun r => (validateStatement r).valid).length = 0 →
      (bulkStoreRun cfg env data).hasDbOp = false ∧
      (bulkStoreRun cfg env data).hasLogError = true ∧
      (bulkInsertRun cfg env data).hasDbOp = false ∧
      (bulkInsertRun cfg env data).hasLogError = true) := by
  constructor
  · intro hne
    simp [bulkStoreRun, bulkInsertRun, bulkBody, connectRun_of_ok hconn, andThen_ok,
          withFinallyClose, hne, Run.insertedRecords, Run.hasLogInfo, recordsOfEvent,
          isLogInfoMsg]
  · intro hz
    simp [bulkStoreRun, bulkInsertRun, bulkBody, connectRun_of_ok hconn, andThen_ok,
          withFinallyClose, hz, Run.hasDbOp, Run.hasLogError, isDbEvent, isLogErrorEvent]

/-- Witness for c2_bulk_exact_subset on a mixed list of one valid and one
invalid record: exactly the valid record is inserted and the count 1 is
logged. -/
theorem c2_witness :
    (bulkStoreRun cfgW envOk [exGoodRecord, exActorNameOnly]).insertedRecords =
      [exGoodRecord] ∧
    (bulkStoreRun cfgW envOk [exGoodRecord, exActorNameOnly]).hasLogInfo
      "1 records inserted successfully" = true := by
  have h := (c2_bulk_exact_subset cfgW envOk [exGoodRecord, exActorNameOnly] rfl).1
    (by decide)
  have hf : ([exGoodRecord, exActorNameOnly].filter fun r => (validateStatement r).valid) =
      [exGoodRecord] := by rfl
  refine ⟨?_, ?_⟩
  · rw [h.1, hf]
  · have := h.2.1
    rw [hf] at this
    exact this

/-- C4: for every record that fails validation (with the connection up),
`createRecord` performs no database operation at all - the stored
collection is unchanged - and its only post-connect event is the error log
carrying the stringified full `validate.errors` list. -/
theorem c4_create_rejected (cfg : Config) (env : Env) (data : Json)
    (hconn : env.connectionOk = true)
    (hinvalid : (validateStatement data).valid = false) :
    (createRecordRun cfg env data).hasDbOp = false ∧
    applyEvents cfg.collectionName env.store (createRecordRun cfg env data).events =
      env.store ∧
    (createRecordRun cfg env data).events =
      [Event.connect,
       Event.logError "Error while creating record:"
         ("Validation failed: " ++ errorsToString (validateStatement data).errors)] ∧
    (createRecordRun cfg env data).outcome = Outcome.ok := by
  simp [createRecordRun, connectRun_of_ok hconn, andThen_ok, hinvalid,
        Run.hasDbOp, isDbEvent, applyEvents, applyEvent]

/-- Witness for c4_create_rejected at the invalid example record. -/
theorem c4_witness :
    (validateStatement exActorNameOnly).valid = false ∧
    (createRecordRun cfgW envOkOneRecord exActorNameOnly).hasDbOp = false ∧
    applyEvents cfgW.collectionName envOkOneRecord.store
      (createRecordRun cfgW envOkOneRecord exActorNameOnly).events =
      envOkOneRecord.store :=
  ⟨by decide,
   (c4_create_rejected cfgW envOkOneRecord exActorNameOnly rfl (by decide)).1,
   (c4_create_rejected cfgW envOkOneRecord exActorNameOnly rfl (by decide)).2.1⟩

/-- C5 (counterexample): a connection failure arising inside the `create`
command handler terminates the process with exit code 1 (`connect()` calls
`process.exit(1)` on a failed `client.connect()`), refuting the claim that
no error inside a command handler yields a non-zero exit code. -/
theorem c5_counterexample :
    (createCommandRun cfgW envConnFail (some exGoodRecord)).outcome = Outcome.exited 1 := by
  decide

/-- C5 (amended): handler errors other than connection failure are caught
and the run completes normally - the `create` and `bulkImport` commands
end with outcome ok for every payload (valid, invalid or malformed) when
the connection succeeds; the process exits 1 when required configuration
is missing at startup, and also whenever `connect()` cannot establish the
MongoDB connection inside a handler. -/
theorem c5_exit_policy :
    (∀ (cfg : Config) (env : Env) (arg : Option Json),
      env.connectionOk = true →
      (createCommandRun cfg env arg).outcome = Outcome.ok) ∧
    (∀ (cfg : Config) (env : Env) (arg : Option (List Json)),
      env.connectionOk = true →
      (bulkImportCommandRun cfg env arg).outcome = Outcome.ok) ∧
    (∀ (cfg : Config) (env : Env) (data : Json),
      env.connectionOk = false →
      (createCommandRun cfg env (some data)).outcome = Outcome.exited 1) ∧
    (∀ (uri dbn coll : Option String),
      envMissing uri = true →
      (bootstrapRun uri dbn coll).outcome = Outcome.exited 1) := by
  refine ⟨?_, ?_, ?_, ?_⟩
  · intro cfg env arg hconn
    cases arg with
    | none => rfl
    | some data =>
        by_cases hval : (validateStatement data).valid <;>
          simp [createCommandRun, createRecordRun, connectRun_of_ok hconn, andThen_ok, hval]
  · intro cfg env arg hconn
    cases arg with
    | none => rfl
    | some data =>
        simp only [bulkImportCommandRun, bulkInsertRun, connectRun_of_ok hconn, andThen_ok]
        by_cases hz : (data.filter fun r => (validateStatement r).valid).length = 0 <;>
          simp [bulkBody, hz]
  · intro cfg env data hconn
    simp [createCommandRun, createRecordRun, connectRun, hconn, Run.andThen]
  · intro uri dbn coll hmiss
    simp [bootstrapRun, hmiss]

/-- Witness for c5_exit_policy at concrete inputs. -/
theorem c5_witness :
    (createCommandRun cfgW envOk (some exActorNameOnly)).outcome = Outcome.ok ∧
    (bulkImportCommandRun cfgW envOk none).outcome = Outcome.ok ∧
    (createCommandRun cfgW envConnFail (some exActorNameOnly)).outcome = Outcome.exited 1 ∧
    (bootstrapRun none (some "empress") (some "statements")).outcome = Outcome.exited 1 :=
  ⟨c5_exit_policy.1 cfgW envOk (some exActorNameOnly) rfl,
   c5_exit_policy.2.1 cfgW envOk none rfl,
   c5_exit_policy.2.2.1 cfgW envConnFail exActorNameOnly rfl,
   c5_exit_policy.2.2.2 none (some "empress") (some "statements") rfl⟩

/-- C6 (counterexample): the confirmation prompt inside `resetDatabase`
specifies no `default`, and an inquirer confirm prompt with no default
resolves an empty answer (pressing enter) to yes - so entering no input at
that prompt invokes `deleteMany` and empties the collection, refuting the
claim that no input is treated as "no" on every run of the reset
confirmation prompt. -/
theorem c6_counterexample :
    (resetDatabaseRun cfgW envOkOneRecord none).hasDeleteMany = true ∧
    applyEvents cfgW.collectionName envOkOneRecord.store
      (resetDatabaseRun cfgW envOkOneRecord none).events = [] := by
  exact ⟨by decide, by rfl⟩

/-- C6 (amended): the command-level `reset-db` prompt has `default: false`,
so entering no input there cancels the operation: no `deleteMany` is
invoked and the collection is unchanged; an explicit negative at the inner
prompt likewise cancels; but once the command-level prompt is answered
affirmatively, entering no input at the inner `resetDatabase` prompt
resolves to yes (inquirer confirm with no default) and `deleteMany` is
invoked. -/
theorem c6_reset_prompt_defaults :
    (∀ (cfg : Config) (env : Env) (inner : Option Bool),
      (resetDbCommandRun cfg env none inner).hasDeleteMany = false ∧
      applyEvents cfg.collectionName env.store
        (resetDbCommandRun cfg env none inner).events = env.store) ∧
    (∀ (cfg : Config) (env : Env) (outer : Option Bool),
      (resetDbCommandRun cfg env outer (some false)).hasDeleteMany = false) ∧
    (∀ (cfg : Config) (env : Env),
      env.connectionOk = true →
      (resetDbCommandRun cfg env (some true) none).hasDeleteMany = true) := by
  refine ⟨?_, ?_, ?_⟩
  · intro cfg env inner
    simp [resetDbCommandRun, Run.hasDeleteMany, isDeleteManyEvent,
          applyEvents, applyEvent]
  · intro cfg env outer
    cases outer with
    | none => simp [resetDbCommandRun, Run.hasDeleteMany, isDeleteManyEvent]
    | some b =>
        cases b <;>
          simp [resetDbCommandRun, resetDatabaseRun, withFinallyClose, Run.andThen,
                Run.hasDeleteMany, isDeleteManyEvent]
  · intro cfg env hconn
    simp [resetDbCommandRun, resetDatabaseRun, connectRun_of_ok hconn, andThen_ok,
          withFinallyClose, Run.andThen, Run.hasDeleteMany, isDeleteManyEvent]

/-- Witness for c6_reset_prompt_defaults at concrete inputs. -/
theorem c6_witness :
    (resetDbCommandRun cfgW envOkOneRecord none none).hasDeleteMany = false ∧
    (resetDbCommandRun cfgW envOkOneRecord (some true) (some false)).hasDeleteMany = false ∧
    (resetDbCommandRun cfgW envOkOneRecord (some true) none).hasDeleteMany = true :=
  ⟨(c6_reset_prompt_defaults.1 cfgW envOkOneRecord none).1,
   c6_reset_prompt_defaults.2.1 cfgW envOkOneRecord (some true),
   c6_reset_prompt_defaults.2.2 cfgW envOkOneRecord rfl⟩

/-- C7 (counterexample): a malformed JSON payload to the `bulk-store`
command escapes the handler as an uncaught rejection - no logger call is
made - refuting the claim that every command with a JSON payload reports
(logs) a malformed payload; no database write occurs. -/
theorem c7_counterexample :
    (bulkStoreCommandRun cfgW envOk none).outcome = Outcome.uncaught ∧
    (bulkStoreCommandRun cfgW envOk none).hasLogError = false ∧
    (bulkStoreCommandRun cfgW envOk none).hasDbOp = false := by
  exact ⟨by decide, by decide, by decide⟩

/-- C7 (amended): a malformed JSON payload never results in a database
write for any of the modeled commands; the `create`, `bulkImport` and
`import-statements` handlers catch the parse error and log it, completing
normally, while the `bulk-store` handler does not catch it - the parse
error escapes uncaught, with no log call. -/
theorem c7_malformed_payload :
    (∀ (cfg : Config) (env : Env),
      (createCommandRun cfg env none).hasDbOp = false ∧
      (createCommandRun cfg env none).hasLogError = true ∧
      (createCommandRun cfg env none).outcome = Outcome.ok) ∧
    (∀ (cfg : Config) (env : Env),
      (bulkImportCommandRun cfg env none).hasDbOp = false ∧
      (bulkImportCommandRun cfg env none).hasLogError = true ∧
      (bulkImportCommandRun cfg env none).outcome = Outcome.ok) ∧
    (∀ (cfg : Config) (env : Env),
      (importStatementsRun cfg env none).hasDbOp = false ∧
      (importStatementsRun cfg env none).hasLogError = true ∧
      (importStatementsRun cfg env none).outcome = Outcome.ok) ∧
    (∀ (cfg : Config) (env : Env),
      (bulkStoreCommandRun cfg env none).hasDbOp = false ∧
      (bulkStoreCommandRun cfg env none).hasLogError = false ∧
      (bulkStoreCommandRun cfg env none).outcome = Outcome.uncaught) := by
  refine ⟨?_, ?_, ?_, ?_⟩ <;>
    intro cfg env <;>
    simp [createCommandRun, bulkImportCommandRun, importStatementsRun, bulkStoreCommandRun,
          Run.hasDbOp, Run.hasLogError, isDbEvent, isLogErrorEvent]

/-- Witness for c7_malformed_payload at the concrete configuration. -/
theorem c7_witness :
    (createCommandRun cfgW envOk none).hasDbOp = false ∧
    (createCommandRun cfgW envOk none).hasLogError = true ∧
    (bulkStoreCommandRun cfgW envOk none).hasDbOp = false :=
  ⟨(c7_malformed_payload.1 cfgW envOk).1,
   (c7_malformed_payload.1 cfgW envOk).2.1,
   (c7_malformed_payload.2.2.2 cfgW envOk).1⟩

/-- C8 (counterexample): `createRecord` performs a remote insert but never
closes the connection on its own exit path - the run of a successful
create contains a database operation, completes normally, and contains no
close event - refuting the claim that every handler performing a remote
operation releases the connection on its own exit path. -/
theorem c8_counterexample :
    (createRecordRun cfgW envOk exGoodRecord).hasDbOp = true ∧
    (createRecordRun cfgW envOk exGoodRecord).outcome = Outcome.ok ∧
    (createRecordRun cfgW envOk exGoodRecord).hasClose = false := by
  exact ⟨by decide, by decide, by decide⟩

/-- C8 (amended): the handlers written with a `finally` block
(`bulkStoreStatements`, `listAllVerbs`, `resetDatabase`) close the
connection on their own exit path on both success and failure, but
`createRecord`, `queryRecords` and `bulkInsert` never do - for them the
connection stays open past the handler boundary (it is closed only by the
process-exit hook). -/
theorem c8_connection_close (cfg : Config) (env : Env) (data : Json)
    (records : List Json) (filt : Json) (inner : Option Bool)
    (hconn : env.connectionOk = true) :
    (bulkStoreRun cfg env records).hasClose = true ∧
    (listAllVerbsRun cfg env).hasClose = true ∧
    (resetDatabaseRun cfg env inner).hasClose = true ∧
    (createRecordRun cfg env data).hasClose = false ∧
    (queryRecordsRun cfg env (some filt)).hasClose = false ∧
    (bulkInsertRun cfg env records).hasClose = false := by
  refine ⟨?_, ?_, ?_, ?_, ?_, ?_⟩
  · by_cases hz : (records.filter fun r => (validateStatement r).valid).length = 0 <;>
      simp [bulkStoreRun, bulkBody, connectRun_of_ok hconn, andThen_ok, withFinallyClose,
            hz, Run.hasClose, isCloseEvent]
  · simp [listAllVerbsRun, connectRun_of_ok hconn, andThen_ok, withFinallyClose,
          Run.hasClose, isCloseEvent]
  · cases inner with
    | none =>
        simp [resetDatabaseRun, connectRun_of_ok hconn, andThen_ok, withFinallyClose,
              Run.hasClose, isCloseEvent]
    | some b =>
        cases b <;>
          simp [resetDatabaseRun, connectRun_of_ok hconn, andThen_ok, withFinallyClose,
                Run.hasClose, isCloseEvent]
  · by_cases hval : (validateStatement data).valid <;>
      simp [createRecordRun, connectRun_of_ok hconn, andThen_ok, hval,
            Run.hasClose, isCloseEvent]
  · simp [queryRecordsRun, connectRun_of_ok hconn, andThen_ok, Run.hasClose, isCloseEvent]
  · by_cases hz : (records.filter fun r => (validateStatement r).valid).length = 0 <;>
      simp [bulkInsertRun, bulkBody, connectRun_of_ok hconn, andThen_ok, hz,
            Run.hasClose, isCloseEvent]

/-- Witness for c8_connection_close at concrete inputs. -/
theorem c8_witness :
    (bulkStoreRun cfgW envOk [exGoodRecord]).hasClose = true ∧
    (createRecordRun cfgW envOk exGoodRecord).hasClose = false :=
  ⟨(c8_connection_close cfgW envOk exGoodRecord [exGoodRecord] exGoodRecord none rfl).1,
   (c8_connection_close cfgW envOk exGoodRecord [exGoodRecord] exGoodRecord none rfl).2.2.2.1⟩

/-- C9 (counterexample): with the configured collection named
"statements", `registerNewVerb` issues its insert against the hard-coded
collection "verbs" - an operation that touches a collection other than the
configured one, refuting the claim that every Gateway operation is scoped
to the single configured collection. -/
theorem c9_counterexample :
    (registerNewVerbRun cfgW envOk "completed" "finished the course").dbColls = ["verbs"] ∧
    cfgW.collectionName = "statements" ∧
    ("verbs" : String) ≠ "statements" := by
  exact ⟨by decide, by decide, by decide⟩

/-- C9 (amended): every modeled statement operation of each of the eight
Gateway kinds - insert-one (`createRecord`), insert-many (the bulk
handlers), find (`queryRecords`), aggregate (`aggregateStatements`),
distinct (`listAllVerbs`), count (`getLRSStats`), update
(`setStatementAuthority`) and delete-many (`resetDatabase`) - touches
only the configured collection; the sole exceptions are verb
registration, which writes to the fixed collection "verbs", and
activity-type registration, which writes to the fixed collection
"activityTypes". -/
theorem c9_collection_scope (cfg : Config) (env : Env) (data : Json)
    (records : List Json) (filt pipe auth : Json) (inner : Option Bool)
    (sid vb ty df : String) :
    ((createRecordRun cfg env data).dbColls.all
      (fun c => c == cfg.collectionName) = true) ∧
    ((queryRecordsRun cfg env (some filt)).dbColls.all
      (fun c => c == cfg.collectionName) = true) ∧
    ((bulkStoreRun cfg env records).dbColls.all
      (fun c => c == cfg.collectionName) = true) ∧
    ((bulkInsertRun cfg env records).dbColls.all
      (fun c => c == cfg.collectionName) = true) ∧
    ((aggregateStatementsRun cfg env pipe).dbColls.all
      (fun c => c == cfg.collectionName) = true) ∧
    ((listAllVerbsRun cfg env).dbColls.all
      (fun c => c == cfg.collectionName) = true) ∧
    ((getLRSStatsRun cfg env).dbColls.all
      (fun c => c == cfg.collectionName) = true) ∧
    ((setStatementAuthorityRun cfg env sid auth).dbColls.all
      (fun c => c == cfg.collectionName) = true) ∧
    ((resetDatabaseRun cfg env inner).dbColls.all
      (fun c => c == cfg.collectionName) = true) ∧
    ((registerNewVerbRun cfg env vb df).dbColls.all (fun c => c == "verbs") = true) ∧
    ((registerNewActivityTypeRun cfg env ty df).dbColls.all
      (fun c => c == "activityTypes") = true) := by
  cases hconn : env.connectionOk with
  | false =>
      refine ⟨?_, ?_, ?_, ?_, ?_, ?_, ?_, ?_, ?_, ?_, ?_⟩ <;>
        first
          | (cases inner with
              | none =>
                  simp [resetDatabaseRun, connectRun, hconn, Run.andThen,
                        withFinallyClose, Run.dbColls, collOfEvent]
              | some b =>
                  cases b <;>
                    simp [resetDatabaseRun, connectRun, hconn, Run.andThen,
                          withFinallyClose, Run.dbColls, collOfEvent])
          | simp [createRecordRun, queryRecordsRun, bulkStoreRun, bulkInsertRun,
                  aggregateStatementsRun, listAllVerbsRun, getLRSStatsRun,
                  setStatementAuthorityRun, registerNewVerbRun,
                  registerNewActivityTypeRun, connectRun, hconn, Run.andThen,
                  withFinallyClose, Run.dbColls, collOfEvent]
  | true =>
      refine ⟨?_, ?_, ?_, ?_, ?_, ?_, ?_, ?_, ?_, ?_, ?_⟩
      · by_cases hval : (validateStatement data).valid <;>
          simp [createRecordRun, connectRun_of_ok hconn, andThen_ok, hval,
                Run.dbColls, collOfEvent]
      · simp [queryRecordsRun, connectRun_of_ok hconn, andThen_ok, Run.dbColls, collOfEvent]
      · by_cases hz : (records.filter fun r => (validateStatement r).valid).length = 0 <;>
          simp [bulkStoreRun, bulkBody, connectRun_of_ok hconn, andThen_ok,
                withFinallyClose, hz, Run.dbColls, collOfEvent]
      · by_cases hz : (records.filter fun r => (validateStatement r).valid).length = 0 <;>
          simp [bulkInsertRun, bulkBody, connectRun_of_ok hconn, andThen_ok, hz,
                Run.dbColls, collOfEvent]
      · simp [aggregateStatementsRun, connectRun_of_ok hconn, andThen_ok,
              withFinallyClose, Run.dbColls, collOfEvent]
      · simp [listAllVerbsRun, connectRun_of_ok hconn, andThen_ok, withFinallyClose,
              Run.dbColls, collOfEvent]
      · simp [getLRSStatsRun, connectRun_of_ok hconn, andThen_ok, withFinallyClose,
              Run.dbColls, collOfEvent]
      · simp [setStatementAuthorityRun, connectRun_of_ok hconn, andThen_ok,
              withFinallyClose, Run.dbColls, collOfEvent]
      · cases inner with
        | none =>
            simp [resetDatabaseRun, connectRun_of_ok hconn, andThen_ok, withFinallyClose,
                  Run.dbColls, collOfEvent]
        | some b =>
            cases b <;>
              simp [resetDatabaseRun, connectRun_of_ok hconn, andThen_ok, withFinallyClose,
                    Run.dbColls, collOfEvent]
      · simp [registerNewVerbRun, connectRun_of_ok hconn, andThen_ok, withFinallyClose,
              Run.dbColls, collOfEvent]
      · simp [registerNewActivityTypeRun, connectRun_of_ok hconn, andThen_ok,
              withFinallyClose, Run.dbColls, collOfEvent]

/-- Witness for c9_collection_scope at concrete inputs. -/
theorem c9_witness :
    ((createRecordRun cfgW envOk exGoodRecord).dbColls.all
      (fun c => c == cfgW.collectionName) = true) ∧
    ((setStatementAuthorityRun cfgW envOk "abc123" (Json.str "admin")).dbColls.all
      (fun c => c == cfgW.collectionName) = true) ∧
    ((registerNewVerbRun cfgW envOk "completed" "finished").dbColls.all
      (fun c => c == "verbs") = true) :=
  ⟨(c9_collection_scope cfgW envOk exGoodRecord [] exGoodRecord exGoodRecord
      (Json.str "admin") none "abc123" "completed" "course" "finished").1,
   (c9_collection_scope cfgW envOk exGoodRecord [] exGoodRecord exGoodRecord
      (Json.str "admin") none "abc123" "completed" "course" "finished").2.2.2.2.2.2.2.1,
   (c9_collection_scope cfgW envOk exGoodRecord [] exGoodRecord exGoodRecord
      (Json.str "admin") none "abc123" "completed" "course" "finished").2.2.2.2.2.2.2.2.2.1⟩

/-- C10: with answers resolved at both `reset-db` prompts (an explicit
yes/no at each), `deleteMany` is invoked exactly when both the
command-level prompt and the prompt inside `resetDatabase` are answered
affirmatively; a negative answer at either prompt leaves the collection
unchanged. -/
theorem c10_double_confirmation (cfg : Config) (env : Env) (outer inner : Bool)
    (hconn : env.connectionOk = true) :
    ((resetDbCommandRun cfg env (some outer) (some inner)).hasDeleteMany =
      (outer && inner)) ∧
    ((outer && inner) = false →
      applyEvents cfg.collectionName env.store
        (resetDbCommandRun cfg env (some outer) (some inner)).events = env.store) := by
  cases outer <;> cases inner <;>
    simp [resetDbCommandRun, resetDatabaseRun, connectRun_of_ok hconn, andThen_ok,
          withFinallyClose, Run.andThen, Run.hasDeleteMany, isDeleteManyEvent,
          applyEvents, applyEvent]

/-- Witness for c10_double_confirmation: a negative inner answer performs
no deletion and leaves the store unchanged. -/
theorem c10_witness :
    (resetDbCommandRun cfgW envOkOneRecord (some true) (some false)).hasDeleteMany = false ∧
    applyEvents cfgW.collectionName envOkOneRecord.store
      (resetDbCommandRun cfgW envOkOneRecord (some true) (some false)).events =
      envOkOneRecord.store :=
  ⟨(c10_double_confirmation cfgW envOkOneRecord true false rfl).1,
   (c10_double_confirmation cfgW envOkOneRecord true false rfl).2 rfl⟩

end Empress
